import Mathlib

/-!
Verification development for the dlib shape-predictor Python binding
(`tools/python/src/shape_predictor.cpp`) together with the cascaded
regression-tree shape-predictor core it binds.  The binding glue is
embedded directly from the C++ source; parts of the core library that
the binding calls but whose source is not part of this tree (the
predictor inference loop, trainer, evaluator, geometry helpers and the
serialization codec) are modelled from the specification, as marked on
each such definition.
-/

namespace ShapePred

/-- A 2D point.  Coordinates are rationals, standing in for the exact
arithmetic the spec assumes ("floating-point" under deterministic
semantics). -/
structure Point where
  x : ℚ
  y : ℚ
deriving DecidableEq

def zeroPoint : Point := ⟨0, 0⟩

def addPoint (a b : Point) : Point := ⟨a.x + b.x, a.y + b.y⟩

/-- A dlib rectangle: (left, top, right, bottom) with integer edges. -/
structure Rectangle where
  left : ℤ
  top : ℤ
  right : ℤ
  bottom : ℤ
deriving DecidableEq

/-- `full_object_detection`: a bounding box together with the ordered
list of part (landmark) points, exactly the data the C++ class stores. -/
structure FullObjectDetection where
  rect : Rectangle
  parts : List Point
deriving DecidableEq

/-- `full_object_detection::num_parts()`. -/
def FullObjectDetection.num_parts (d : FullObjectDetection) : ℕ :=
  d.parts.length

/-- `full_object_detection::part(idx)` (precondition `idx < num_parts()`
is guaranteed by every caller in the binding). -/
def FullObjectDetection.part (d : FullObjectDetection) (idx : ℕ) : Point :=
  d.parts.getD idx zeroPoint

/-- `full_obj_det_get_rect` from the binding. -/
def full_obj_det_get_rect (detection : FullObjectDetection) : Rectangle :=
  detection.rect

/-- `full_obj_det_num_parts` from the binding. -/
def full_obj_det_num_parts (detection : FullObjectDetection) : ℕ :=
  detection.num_parts

/-- `full_obj_det_part` from the binding: bounds-checked part access that
raises `IndexError` ("Index out of range") for an index outside
`[0, num_parts())`.  The `idx < 0` disjunct of the C++ guard is kept even
though it is vacuous for an unsigned index. -/
def full_obj_det_part (detection : FullObjectDetection) (idx : ℕ) :
    Except String Point :=
  if idx < 0 ∨ detection.num_parts ≤ idx then
    .error "Index out of range"
  else
    .ok (detection.part idx)

/-- `full_obj_det_parts` from the binding: the loop
`for j < num_parts: parts[j] = detection.part(j)`. -/
def full_obj_det_parts (detection : FullObjectDetection) : List Point :=
  (List.range detection.num_parts).map (fun j => detection.part j)

/-- `full_obj_det_init` from the binding: constructs a
`full_object_detection` from a rectangle and a list of points, copying
the points in order (`for j < len(pyparts): parts[j] = pyparts[j]`). -/
def full_obj_det_init (pyrect : Rectangle) (pyparts : List Point) :
    FullObjectDetection :=
  let num_parts := pyparts.length
  let parts := (List.range num_parts).map (fun j => pyparts.getD j zeroPoint)
  { rect := pyrect, parts := parts }

-- ---------------------------------------------------------------------
-- Geometry: the box-normalizing similarity transform.
-- ---------------------------------------------------------------------

def rectWidth (b : Rectangle) : ℚ := ((b.right - b.left : ℤ) : ℚ)

def rectHeight (b : Rectangle) : ℚ := ((b.bottom - b.top : ℤ) : ℚ)

/-- Modelled from the spec: the geometry helpers of the core library are
not part of this tree.  `normalize` maps a point from absolute image
coordinates into the box-normalized frame via the inverse of the
axis-aligned scale-and-translate similarity sending the unit square onto
the box (no rotation: a 4-parameter similarity). -/
def normalizePoint (b : Rectangle) (p : Point) : Point :=
  ⟨(p.x - (b.left : ℚ)) / rectWidth b, (p.y - (b.top : ℚ)) / rectHeight b⟩

/-- Modelled from the spec: inverse of `normalizePoint` — maps a
box-normalized point back to absolute image coordinates by the
axis-aligned scale-and-translate similarity of the box. -/
def denormalizePoint (b : Rectangle) (p : Point) : Point :=
  ⟨p.x * rectWidth b + (b.left : ℚ), p.y * rectHeight b + (b.top : ℚ)⟩

/-- Modelled from the spec: `normalize(shape, box)` applied pointwise. -/
def normalizeShape (s : List Point) (b : Rectangle) : List Point :=
  s.map (normalizePoint b)

/-- Modelled from the spec: `denormalize(shape, box)` applied pointwise. -/
def denormalizeShape (s : List Point) (b : Rectangle) : List Point :=
  s.map (denormalizePoint b)

-- ---------------------------------------------------------------------
-- Images.
-- ---------------------------------------------------------------------

/-- An 8-bit grayscale image as the core consumes it: a row-major pixel
grid offering read-only `intensity(x, y)` access. -/
structure GrayImage where
  rows : List (List ℚ)
deriving DecidableEq

/-- Modelled from the spec: pixel lookup with the out-of-bounds sentinel
(out-of-bounds reads yield zero intensity rather than failing).  The
(rational) sample location is floored to a pixel index. -/
def intensityAt (img : GrayImage) (p : Point) : ℚ :=
  if 0 ≤ ⌊p.x⌋ ∧ 0 ≤ ⌊p.y⌋ then
    (img.rows.getD (⌊p.y⌋).toNat []).getD (⌊p.x⌋).toNat 0
  else
    0

/-- A Python object passed as an image to the binding: a numpy 8-bit
grayscale array, a numpy RGB array, or some other object (unsupported). -/
inductive PyImage where
  | gray (pixels : List (List ℕ))
  | rgb (pixels : List (List (ℕ × ℕ × ℕ)))
  | other (desc : String)
deriving DecidableEq

/-- `is_gray_python_image` from the binding layer: the dynamic type check
selecting the grayscale code path. -/
def is_gray_python_image : PyImage → Bool
  | .gray _ => true
  | _ => false

/-- `is_rgb_python_image` from the binding layer: the dynamic type check
selecting the RGB code path. -/
def is_rgb_python_image : PyImage → Bool
  | .rgb _ => true
  | _ => false

/-- `numpy_gray_image`: view a grayscale numpy array as a dlib image. -/
def numpy_gray_image : PyImage → GrayImage
  | .gray pixels => ⟨pixels.map (fun row => row.map (fun v => (v : ℚ)))⟩
  | _ => ⟨[]⟩

/-- Modelled from the spec: an RGB image is reduced to grayscale
luminance before feature extraction (`get_pixel_intensity` averages the
three channels). -/
def numpy_rgb_image : PyImage → GrayImage
  | .rgb pixels =>
      ⟨pixels.map (fun row => row.map (fun c => ((c.1 + c.2.1 + c.2.2 : ℕ) : ℚ) / 3))⟩
  | _ => ⟨[]⟩

-- ---------------------------------------------------------------------
-- The shape-predictor model and its inference loop.
-- ---------------------------------------------------------------------

/-- One internal node's test: a pair of feature-pool indices and an
intensity-difference threshold. -/
structure SplitFeature where
  idx1 : ℕ
  idx2 : ℕ
  thresh : ℚ
deriving DecidableEq

/-- A regression tree: internal nodes hold split features, leaves hold
shape-sized correction vectors. -/
inductive RegressionTree where
  | leaf (v : List Point)
  | node (s : SplitFeature) (l r : RegressionTree)
deriving DecidableEq

/-- Modelled from the spec: tree evaluation walks from the root, at each
internal node computing the intensity difference of its split feature
and branching right if it is greater than the threshold, else left; the
reached leaf's correction vector is returned. -/
def RegressionTree.eval (feats : List ℚ) : RegressionTree → List Point
  | .leaf v => v
  | .node s l r =>
      if feats.getD s.idx1 0 - feats.getD s.idx2 0 > s.thresh then
        r.eval feats
      else
        l.eval feats

/-- One cascade stage: the shared feature pool (anchor landmark index and
box-normalized offset for each pool location) and the ordered trees. -/
structure CascadeStage where
  pool : List (ℕ × Point)
  trees : List RegressionTree
deriving DecidableEq

/-- The trained artifact: initial mean shape (normalized) plus the
ordered cascade stages. -/
structure ShapePredictorModel where
  initial_shape : List Point
  stages : List CascadeStage
deriving DecidableEq

/-- Pointwise shape addition used to accumulate leaf corrections; the
left operand's length is preserved. -/
def addShape (a b : List Point) : List Point :=
  a.enum.map (fun kp => addPoint kp.2 (b.getD kp.1 zeroPoint))

/-- Modelled from the spec: the absolute image location sampled for pool
entry (anchor, delta) — the offset is anchored at the current estimate of
landmark `anchor` and mapped through the box similarity transform back to
absolute coordinates. -/
def featurePoint (box : Rectangle) (cur : List Point) (anchor : ℕ)
    (delta : Point) : Point :=
  denormalizePoint box (addPoint (cur.getD anchor zeroPoint) delta)

/-- Modelled from the spec: the intensity at a pool location for the
given current (normalized) shape estimate. -/
def sampleFeature (img : GrayImage) (box : Rectangle) (cur : List Point)
    (anchor : ℕ) (delta : Point) : ℚ :=
  intensityAt img (featurePoint box cur anchor delta)

/-- Modelled from the spec: one cascade stage at inference time — extract
the shared feature pool once against the estimate as it stood at the
start of the stage, then evaluate each tree in order, accumulating leaf
corrections into the (normalized) estimate. -/
def applyStage (img : GrayImage) (box : Rectangle) (cur : List Point)
    (st : CascadeStage) : List Point :=
  let feats := st.pool.map (fun ad => sampleFeature img box cur ad.1 ad.2)
  st.trees.foldl (fun c t => addShape c (t.eval feats)) cur

/-- Modelled from the spec: `predict(image, box)` — start from the
initial mean shape, apply each cascade stage in order (working in
box-normalized space, each stage sampling features relative to the
latest estimate), and denormalize into the box at the end. -/
def predictShape (m : ShapePredictorModel) (img : GrayImage)
    (box : Rectangle) : List Point :=
  denormalizeShape (m.stages.foldl (applyStage img box) m.initial_shape) box

/-- Modelled from the spec: the predictor returns a single
`full_object_detection` holding the query box and the predicted parts. -/
def predictDet (m : ShapePredictorModel) (img : GrayImage)
    (box : Rectangle) : FullObjectDetection :=
  { rect := box, parts := predictShape m img box }

/-- `run_predictor` from the binding: dispatch on the dynamic image type
(grayscale path, RGB path, or a descriptive error for anything else).
The C++ function receives the predictor and image by reference and never
writes to them; the embedding passes that state through explicitly and
returns it alongside the result. -/
def run_predictor (predictor : ShapePredictorModel) (img : PyImage)
    (box : Rectangle) :
    Except String FullObjectDetection × ShapePredictorModel × PyImage :=
  if is_gray_python_image img then
    (.ok (predictDet predictor (numpy_gray_image img) box), predictor, img)
  else if is_rgb_python_image img then
    (.ok (predictDet predictor (numpy_rgb_image img) box), predictor, img)
  else
    (.error "Unsupported image type, must be 8bit gray or RGB image.",
      predictor, img)

-- ---------------------------------------------------------------------
-- Serialization codec (model persistence).
-- ---------------------------------------------------------------------

/-- One token of the serialized stream: an unsigned count/index or a
scalar.  Stands in for the byte-level codec of the persistence layer. -/
inductive Tok where
  | n (v : ℕ)
  | q (v : ℚ)
deriving DecidableEq

def encodeNat (v : ℕ) : List Tok := [Tok.n v]

def decodeNat : List Tok → Option (ℕ × List Tok)
  | Tok.n v :: rest => some (v, rest)
  | _ => none

def encodeQ (v : ℚ) : List Tok := [Tok.q v]

def decodeQ : List Tok → Option (ℚ × List Tok)
  | Tok.q v :: rest => some (v, rest)
  | _ => none

def encodePoint (p : Point) : List Tok := encodeQ p.x ++ encodeQ p.y

def decodePoint (toks : List Tok) : Option (Point × List Tok) := do
  let (x, r1) ← decodeQ toks
  let (y, r2) ← decodeQ r1
  some (⟨x, y⟩, r2)

/-- Count-prefixed list payload: the concatenation of the encodings of
the elements. -/
def encodeListBody {α : Type} (enc : α → List Tok) (l : List α) : List Tok :=
  (l.map enc).flatten

def decodeCount {α : Type} (dec : List Tok → Option (α × List Tok)) :
    ℕ → List Tok → Option (List α × List Tok)
  | 0, toks => some ([], toks)
  | k + 1, toks => do
      let (x, r1) ← dec toks
      let (xs, r2) ← decodeCount dec k r1
      some (x :: xs, r2)

def encodeList {α : Type} (enc : α → List Tok) (l : List α) : List Tok :=
  encodeNat l.length ++ encodeListBody enc l

def decodeList {α : Type} (dec : List Tok → Option (α × List Tok))
    (toks : List Tok) : Option (List α × List Tok) := do
  let (k, r1) ← decodeNat toks
  decodeCount dec k r1

def encodeShape (s : List Point) : List Tok := encodeList encodePoint s

def decodeShape (toks : List Tok) : Option (List Point × List Tok) :=
  decodeList decodePoint toks

def encodeSplit (s : SplitFeature) : List Tok :=
  encodeNat s.idx1 ++ encodeNat s.idx2 ++ encodeQ s.thresh

def decodeSplit (toks : List Tok) : Option (SplitFeature × List Tok) := do
  let (i1, r1) ← decodeNat toks
  let (i2, r2) ← decodeNat r1
  let (t, r3) ← decodeQ r2
  some (⟨i1, i2, t⟩, r3)

/-- Number of constructors of a tree: the fuel needed to decode it. -/
def treeSize : RegressionTree → ℕ
  | .leaf _ => 1
  | .node _ l r => treeSize l + treeSize r + 1

/-- Tree payload in a fixed traversal order (pre-order): a tag, then for
an internal node its split feature and both subtrees, for a leaf its
correction vector. -/
def encodeTreeBody : RegressionTree → List Tok
  | .leaf v => Tok.n 0 :: encodeShape v
  | .node s l r => Tok.n 1 :: (encodeSplit s ++ encodeTreeBody l ++ encodeTreeBody r)

def decodeTreeBody : ℕ → List Tok → Option (RegressionTree × List Tok)
  | 0, _ => none
  | fuel + 1, toks =>
    match toks with
    | Tok.n 0 :: r =>
        (decodeShape r).map (fun vr => (.leaf vr.1, vr.2))
    | Tok.n 1 :: r => do
        let (s, r1) ← decodeSplit r
        let (l, r2) ← decodeTreeBody fuel r1
        let (rt, r3) ← decodeTreeBody fuel r2
        some (.node s l rt, r3)
    | _ => none

/-- A tree is serialized as its node count followed by its payload. -/
def encodeTree (t : RegressionTree) : List Tok :=
  encodeNat (treeSize t) ++ encodeTreeBody t

def decodeTree (toks : List Tok) : Option (RegressionTree × List Tok) := do
  let (sz, r1) ← decodeNat toks
  decodeTreeBody sz r1

def encodePoolEntry (e : ℕ × Point) : List Tok :=
  encodeNat e.1 ++ encodePoint e.2

def decodePoolEntry (toks : List Tok) : Option ((ℕ × Point) × List Tok) := do
  let (a, r1) ← decodeNat toks
  let (p, r2) ← decodePoint r1
  some ((a, p), r2)

def encodeStage (st : CascadeStage) : List Tok :=
  encodeList encodePoolEntry st.pool ++ encodeList encodeTree st.trees

def decodeStage (toks : List Tok) : Option (CascadeStage × List Tok) := do
  let (pool, r1) ← decodeList decodePoolEntry toks
  let (trees, r2) ← decodeList decodeTree r1
  some (⟨pool, trees⟩, r2)

/-- Modelled from the spec: `serialize(M)` — a versioned flat layout
preserving the initial mean shape and, for each cascade stage, the shared
feature-pool offsets and every tree's split features and leaf correction
vectors in a fixed traversal order. -/
def serializeModel (m : ShapePredictorModel) : List Tok :=
  encodeShape m.initial_shape ++ encodeList encodeStage m.stages

/-- Modelled from the spec: `deserialize` — parse the layout written by
`serializeModel` back into a model, failing on malformed input. -/
def deserializeModel (toks : List Tok) : Option ShapePredictorModel := do
  let (shape, r1) ← decodeShape toks
  let (stages, _) ← decodeList decodeStage r1
  some ⟨shape, stages⟩

-- ---------------------------------------------------------------------
-- Trainer.
-- ---------------------------------------------------------------------

/-- `shape_predictor_training_options`: the hyperparameter container the
binding exposes field-for-field. -/
structure TrainingOptions where
  be_verbose : Bool
  cascade_depth : ℕ
  tree_depth : ℕ
  num_trees_per_cascade_level : ℕ
  nu : ℚ
  oversampling_amount : ℕ
  feature_pool_size : ℕ
  lambda : ℚ
  num_test_splits : ℕ
  feature_pool_region_padding : ℚ
  random_seed : String
deriving DecidableEq

/-- State of the single pseudo-random generator owned by a training run. -/
structure Rng where
  state : ℕ
deriving DecidableEq

def rngModulus : ℕ := 2 ^ 31

/-- Modelled from the spec: one step of the training run's seeded
pseudo-random generator (a linear congruential generator). -/
def Rng.next (g : Rng) : ℕ × Rng :=
  let s := (g.state * 1103515245 + 12345) % rngModulus
  (s, ⟨s⟩)

/-- Modelled from the spec: the generator is seeded from the
`random_seed` option (a string, hashed into the initial state). -/
def mkRng (seed : String) : Rng :=
  ⟨seed.foldl (fun a c => (a * 31 + c.toNat) % rngModulus) 5381⟩

/-- A uniform draw from `[0, n)` (from `[0, 1)` when `n = 0`). -/
def randNat (g : Rng) (n : ℕ) : ℕ × Rng :=
  let (v, g1) := g.next
  (v % max n 1, g1)

/-- A uniform rational draw from `[0, 1)`. -/
def randQ (g : Rng) : ℚ × Rng :=
  let (v, g1) := g.next
  ((v : ℚ) / (rngModulus : ℚ), g1)

/-- A uniform rational draw from `[-r, r)`. -/
def randSym (g : Rng) (r : ℚ) : ℚ × Rng :=
  let (u, g1) := randQ g
  (r * (2 * u - 1), g1)

/-- Modelled from the spec: a random offset sampled uniformly inside a
disk of radius `r` (by rejection, with a retry bound; the last draw's
fallback is the disk center). -/
def randPointInDisk : ℕ → Rng → ℚ → Point × Rng
  | 0, g, _ => (zeroPoint, g)
  | fuel + 1, g, r =>
    let (dx, g1) := randSym g r
    let (dy, g2) := randSym g1 r
    if dx ^ 2 + dy ^ 2 ≤ r ^ 2 then (⟨dx, dy⟩, g2)
    else randPointInDisk fuel g2 r

/-- One oversampled training example: source image, its box, the
normalized target shape, and the current (normalized) estimate, mutated
once per tree build. -/
structure TrainingSample where
  imgIdx : ℕ
  box : Rectangle
  target : List Point
  current : List Point
deriving DecidableEq

/-- Pointwise shape subtraction (residual = target − current). -/
def subShape (a b : List Point) : List Point :=
  a.enum.map (fun kp =>
    ⟨kp.2.x - (b.getD kp.1 zeroPoint).x, kp.2.y - (b.getD kp.1 zeroPoint).y⟩)

def scaleShape (c : ℚ) (s : List Point) : List Point :=
  s.map (fun p => ⟨c * p.x, c * p.y⟩)

def sumShapes (P : ℕ) (l : List (List Point)) : List Point :=
  l.foldl addShape (List.replicate P zeroPoint)

/-- Pointwise mean of a bag of `P`-point shapes (the zero shape for an
empty bag). -/
def meanShapeOf (P : ℕ) (l : List (List Point)) : List Point :=
  scaleShape (1 / (l.length : ℚ)) (sumShapes P l)

def shapeSq (s : List Point) : ℚ := (s.map (fun p => p.x ^ 2 + p.y ^ 2)).sum

def sqDist (a b : Point) : ℚ := (a.x - b.x) ^ 2 + (a.y - b.y) ^ 2

/-- Partition the (feature-vector, residual) items of a node by the
candidate's test `feature(idx1) - feature(idx2) > thresh`. -/
def splitItems (c : SplitFeature) (items : List (List ℚ × List Point)) :
    List (List ℚ × List Point) × List (List ℚ × List Point) :=
  items.partition (fun it => it.1.getD c.idx1 0 - it.1.getD c.idx2 0 > c.thresh)

/-- Sum of squared residual errors of a partition when predicting each
residual by the partition's residual mean. -/
def sseOf (P : ℕ) (items : List (List ℚ × List Point)) : ℚ :=
  if items.isEmpty then 0
  else
    let m := meanShapeOf P (items.map (fun it => it.2))
    ((items.map (fun it => shapeSq (subShape it.2 m))).sum)

/-- The position of a feature-pool entry in the normalized reference
frame (its anchor landmark of the reference shape plus its offset). -/
def poolPos (pool : List (ℕ × Point)) (refShape : List Point) (i : ℕ) : Point :=
  let e := pool.getD i (0, zeroPoint)
  addPoint (refShape.getD e.1 zeroPoint) e.2

/-- Modelled from the spec: the candidate threshold is drawn from the
empirical distribution of the intensity difference across the node's
current samples. -/
def candThresh (items : List (List ℚ × List Point)) (i1 i2 : ℕ) (g : Rng) :
    ℚ × Rng :=
  let (k, g1) := randNat g items.length
  let f := (items.getD k ([], [])).1
  (f.getD i1 0 - f.getD i2 0, g1)

/-- Modelled from the spec: draw one candidate split: two distinct
feature-pool indices accepted with probability weighted by
`1 / (1 + lambda * distance)` between the two pool locations (distance
measured squared to stay within rational arithmetic), plus an
empirically drawn threshold; retries are bounded, with an unconditional
final draw as fallback. -/
def drawCandidate (pool : List (ℕ × Point)) (refShape : List Point) (lam : ℚ)
    (items : List (List ℚ × List Point)) :
    ℕ → Rng → SplitFeature × Rng
  | 0, g =>
      let (i1, g1) := randNat g pool.length
      let (i2, g2) := randNat g1 pool.length
      let (t, g3) := candThresh items i1 i2 g2
      (⟨i1, i2, t⟩, g3)
  | fuel + 1, g =>
      let (i1, g1) := randNat g pool.length
      let (i2, g2) := randNat g1 pool.length
      let (u, g3) := randQ g2
      if i1 ≠ i2 ∧
          u * (1 + lam * sqDist (poolPos pool refShape i1) (poolPos pool refShape i2)) < 1 then
        let (t, g4) := candThresh items i1 i2 g3
        (⟨i1, i2, t⟩, g4)
      else
        drawCandidate pool refShape lam items fuel g3

/-- Modelled from the spec: sample `numTest` candidate splits and keep
the one minimizing the combined sum of squared residual errors of the
two partitions; candidates that route every sample to one side are
rejected (minimum-partition-size guard).  If every candidate is
degenerate, the last draw is kept. -/
def pickSplit (P : ℕ) (pool : List (ℕ × Point)) (refShape : List Point)
    (lam : ℚ) (items : List (List ℚ × List Point)) (numTest : ℕ) (g : Rng) :
    SplitFeature × Rng :=
  let step := fun (acc : Option (SplitFeature × ℚ) × SplitFeature × Rng) (_ : ℕ) =>
    let (c, g1) := drawCandidate pool refShape lam items 8 acc.2.2
    let parts := splitItems c items
    let sc? := if parts.1.isEmpty ∨ parts.2.isEmpty then none
               else some (sseOf P parts.1 + sseOf P parts.2)
    let best := match acc.1, sc? with
      | none, none => none
      | none, some sc => some (c, sc)
      | some b, none => some b
      | some b, some sc => if sc < b.2 then some (c, sc) else some b
    (best, c, g1)
  let r := (List.range numTest).foldl step (none, ⟨0, 0, 0⟩, g)
  (match r.1 with
   | some b => b.1
   | none => r.2.1, r.2.2)

/-- Modelled from the spec: greedily grow a fixed-depth binary regression
tree over the node's (feature-vector, residual) items; leaves hold
`nu * mean(residual of routed samples)` (the zero vector for an empty
leaf). -/
def buildTree (P : ℕ) (pool : List (ℕ × Point)) (refShape : List Point)
    (opts : TrainingOptions) :
    ℕ → List (List ℚ × List Point) → Rng → RegressionTree × Rng
  | 0, items, g =>
      (.leaf (scaleShape opts.nu (meanShapeOf P (items.map (fun it => it.2)))), g)
  | depth + 1, items, g =>
      let (c, g1) := pickSplit P pool refShape opts.lambda items opts.num_test_splits g
      let parts := splitItems c items
      let (l, g2) := buildTree P pool refShape opts depth parts.2 g1
      let (r, g3) := buildTree P pool refShape opts depth parts.1 g2
      (.node c l r, g3)

/-- The feature vector of one sample against the stage's shared pool. -/
def stageFeats (images : List GrayImage) (pool : List (ℕ × Point))
    (s : TrainingSample) : List ℚ :=
  pool.map (fun ad => sampleFeature (images.getD s.imgIdx ⟨[]⟩) s.box s.current ad.1 ad.2)

/-- Modelled from the spec: one boosting round — sample the shared
feature pool (anchor uniform over the landmarks, offset uniform in a
disk whose radius grows with `feature_pool_region_padding`), extract
each sample's features once, then build the stage's trees sequentially,
folding every tree's predictions into the samples' running estimates
before the next tree is built. -/
def buildStage (images : List GrayImage) (P : ℕ) (refShape : List Point)
    (opts : TrainingOptions) (samples : List TrainingSample) (g : Rng) :
    CascadeStage × List TrainingSample × Rng :=
  let poolStep := fun (acc : List (ℕ × Point) × Rng) (_ : ℕ) =>
    let (a, g1) := randNat acc.2 P
    let (d, g2) := randPointInDisk 8 g1 (1 / 2 + opts.feature_pool_region_padding)
    (acc.1 ++ [(a, d)], g2)
  let (pool, g1) := (List.range opts.feature_pool_size).foldl poolStep ([], g)
  let feats := samples.map (stageFeats images pool)
  let treeStep := fun (acc : List RegressionTree × List TrainingSample × Rng) (_ : ℕ) =>
    let (trees, samps, g2) := acc
    let items := (samps.zip feats).map (fun sf => (sf.2, subShape sf.1.target sf.1.current))
    let (t, g3) := buildTree P pool refShape opts opts.tree_depth items g2
    let samps2 := (samps.zip feats).map (fun sf =>
      { sf.1 with current := addShape sf.1.current (t.eval sf.2) })
    (trees ++ [t], samps2, g3)
  let (trees, samps, g4) :=
    (List.range opts.num_trees_per_cascade_level).foldl treeStep ([], samples, g1)
  (⟨pool, trees⟩, samps, g4)

/-- The flattened (image index, detection) instances of the two-level
training input. -/
def gatherInstances (detections : List (List FullObjectDetection)) :
    List (ℕ × FullObjectDetection) :=
  (detections.enum.map (fun ir => ir.2.map (fun d => (ir.1, d)))).flatten

/-- Modelled from the spec: the trainer's outer loop against an explicit
generator state — mean shape from the normalized ground truths,
oversampling each instance with `oversampling_amount` randomly chosen
starting shapes, then `cascade_depth` boosting rounds.  Every random
draw threads through the single generator. -/
def trainWithRng (images : List GrayImage)
    (detections : List (List FullObjectDetection)) (opts : TrainingOptions)
    (g : Rng) : ShapePredictorModel :=
  let insts := gatherInstances detections
  let targets := insts.map (fun id => normalizeShape id.2.parts id.2.rect)
  let P := (targets.getD 0 []).length
  let meanShape := meanShapeOf P targets
  let overStep := fun (acc : List TrainingSample × Rng) (id : ℕ × FullObjectDetection) =>
    (List.range opts.oversampling_amount).foldl (fun acc2 _ =>
      let (k, g1) := randNat acc2.2 targets.length
      (acc2.1 ++ [{ imgIdx := id.1, box := id.2.rect,
                    target := normalizeShape id.2.parts id.2.rect,
                    current := targets.getD k meanShape }], g1)) acc
  let (samples0, g1) := insts.foldl overStep ([], g)
  let stageStep := fun (acc : List CascadeStage × List TrainingSample × Rng) (_ : ℕ) =>
    let (stages, samps, g2) := acc
    let (st, samps2, g3) := buildStage images P meanShape opts samps g2
    (stages ++ [st], samps2, g3)
  let (stages, _, _) := (List.range opts.cascade_depth).foldl stageStep ([], samples0, g1)
  ⟨meanShape, stages⟩

/-- Modelled from the spec: a full training run — the single
pseudo-random generator is seeded from `options.random_seed` and drives
all sampling. -/
def train_shape_predictor_trainer (images : List GrayImage)
    (detections : List (List FullObjectDetection)) (opts : TrainingOptions) :
    ShapePredictorModel :=
  trainWithRng images detections opts (mkRng opts.random_seed)

/-- Modelled from the spec: `train_shape_predictor_on_images` of the core
library — validates the option preconditions (`lambda > 0`, `nu > 0`,
`feature_pool_region_padding ≥ 0`) before any training work, then trains
the model that will be serialized to the output file. -/
def train_shape_predictor_on_images (images : List GrayImage)
    (detections : List (List FullObjectDetection)) (opts : TrainingOptions) :
    Except String ShapePredictorModel :=
  if ¬ 0 < opts.lambda then
    .error "Invalid train_shape_predictor() parameter: lambda must be > 0"
  else if ¬ 0 < opts.nu then
    .error "Invalid train_shape_predictor() parameter: nu must be > 0"
  else if opts.feature_pool_region_padding < 0 then
    .error "Invalid train_shape_predictor() parameter: feature_pool_region_padding must be >= 0"
  else
    .ok (train_shape_predictor_trainer images detections opts)

-- ---------------------------------------------------------------------
-- The training binding entry point.
-- ---------------------------------------------------------------------

/-- The observable work a call to the training binding performs, in
order: image conversions, the training run itself, the output-file
write. -/
inductive TrainEvent where
  | imageConverted (i : ℕ)
  | trainingRun
  | fileWritten (name : String)
deriving DecidableEq

/-- Modelled from the spec: `pyimage_to_dlib_image` of the binding's
conversion layer — grayscale arrays load directly, RGB arrays are
converted, anything else is rejected with a descriptive error. -/
def pyimage_to_dlib_image : PyImage → Except String GrayImage
  | .gray pixels => .ok (numpy_gray_image (.gray pixels))
  | .rgb pixels => .ok (numpy_rgb_image (.rgb pixels))
  | .other _ => .error "Unsupported image type, must be 8bit gray or RGB image."

/-- Modelled from the spec: the image-conversion loop of the binding's
`images_and_nested_params_to_dlib`; one event per converted image,
stopping at the first unconvertible image. -/
def convertImagesLoop : List PyImage → ℕ → Except String (List GrayImage) × List TrainEvent
  | [], _ => (.ok [], [])
  | img :: rest, i =>
    match pyimage_to_dlib_image img with
    | .error e => (.error e, [])
    | .ok gimg =>
      match convertImagesLoop rest (i + 1) with
      | (.error e, tr) => (.error e, .imageConverted i :: tr)
      | (.ok gs, tr) => (.ok (gimg :: gs), .imageConverted i :: tr)

/-- `train_shape_predictor_on_images_py` from the binding: checks the
images/detections length agreement first, then converts the inputs to
dlib objects and runs the trainer, which serializes the result to the
output file.  The event trace records the work performed. -/
def train_shape_predictor_on_images_py (pyimages : List PyImage)
    (pydetections : List (List FullObjectDetection))
    (predictor_output_filename : String) (options : TrainingOptions) :
    Except String Unit × List TrainEvent :=
  let num_images := pyimages.length
  if num_images ≠ pydetections.length then
    (.error "The length of the detections list must match the length of the images list.",
      [])
  else
    match convertImagesLoop pyimages 0 with
    | (.error e, tr) => (.error e, tr)
    | (.ok images, tr) =>
      match train_shape_predictor_on_images images pydetections options with
      | .error e => (.error e, tr)
      | .ok _ => (.ok (), tr ++ [.trainingRun, .fileWritten predictor_output_filename])

-- ---------------------------------------------------------------------
-- Evaluator and the test binding entry points.
-- ---------------------------------------------------------------------

def emptyDet : FullObjectDetection := ⟨⟨0, 0, 0, 0⟩, []⟩

/-- Euclidean distance between two points. -/
noncomputable def pointDistR (a b : Point) : ℝ :=
  Real.sqrt (((a.x - b.x) ^ 2 + (a.y - b.y) ^ 2 : ℚ) : ℝ)

/-- The per-instance scale divisor: 1 when no scales were supplied,
otherwise the supplied per-detection scale. -/
def scaleAt (scales : List (List ℚ)) (i j : ℕ) : ℚ :=
  if scales.isEmpty then 1 else (scales.getD i []).getD j 1

/-- Modelled from the spec: the summed per-landmark error of one labeled
instance — the predictor is run on the instance's box and each predicted
landmark's Euclidean distance to the ground truth is divided by the
instance's scale. -/
noncomputable def detErrorSum (m : ShapePredictorModel) (img : GrayImage)
    (det : FullObjectDetection) (scale : ℚ) : ℝ :=
  ((List.range det.num_parts).map (fun k =>
    pointDistR ((predictShape m img det.rect).getD k zeroPoint) (det.part k)
      / (scale : ℝ))).sum

/-- Modelled from the spec: `test_shape_predictor_with_images` of the
core library — the mean, over all landmarks of all labeled instances, of
the (optionally scale-normalized) per-landmark Euclidean error. -/
noncomputable def test_shape_predictor_with_images (m : ShapePredictorModel)
    (images : List GrayImage) (detections : List (List FullObjectDetection))
    (scales : List (List ℚ)) : ℝ :=
  (((List.range images.length).map (fun i =>
    ((List.range (detections.getD i []).length).map (fun j =>
      detErrorSum m (images.getD i ⟨[]⟩) ((detections.getD i []).getD j emptyDet)
        (scaleAt scales i j))).sum)).sum) /
  (((((List.range images.length).map (fun i =>
    ((List.range (detections.getD i []).length).map (fun j =>
      ((detections.getD i []).getD j emptyDet).num_parts)).sum)).sum : ℕ) : ℝ))

/-- The observable work of a test-binding call: image conversions, then
the inference/evaluation pass. -/
inductive TestEvent where
  | imageConverted (i : ℕ)
  | inference
deriving DecidableEq

/-- The data-copying loop of `test_shape_predictor_with_images_py`
(lines 120–134 of the binding): for each image, its detections are
extracted, the image is converted, and — when scales were supplied — the
inner scales row is length-checked against the detections row before
being collected. -/
def testLoop (pydetections : List (List FullObjectDetection))
    (pyscales : List (List ℚ)) (useScales : Bool) :
    List PyImage → ℕ →
      Except String (List GrayImage × List (List ℚ)) × List TestEvent
  | [], _ => (.ok ([], []), [])
  | img :: rest, i =>
    let num_boxes := (pydetections.getD i []).length
    match pyimage_to_dlib_image img with
    | .error e => (.error e, [])
    | .ok gimg =>
      if useScales ∧ num_boxes ≠ (pyscales.getD i []).length then
        (.error "The length of the scales list must match the length of the detections list.",
          [.imageConverted i])
      else
        match testLoop pydetections pyscales useScales rest (i + 1) with
        | (.error e, tr) => (.error e, .imageConverted i :: tr)
        | (.ok (gs, ss), tr) =>
          (.ok (gimg :: gs, if useScales then pyscales.getD i [] :: ss else ss),
            .imageConverted i :: tr)

/-- `test_shape_predictor_with_images_py` from the binding: outer length
checks (detections against images, then scales against images when
non-empty), the data-copying loop, and finally the evaluation of the
predictor loaded from `predictor_filename` (the file system is an
explicit environment mapping filenames to stored models). -/
noncomputable def test_shape_predictor_with_images_py
    (fileModels : String → Option ShapePredictorModel)
    (pyimages : List PyImage) (pydetections : List (List FullObjectDetection))
    (pyscales : List (List ℚ)) (predictor_filename : String) :
    Except String ℝ × List TestEvent :=
  let num_images := pyimages.length
  let num_scales := pyscales.length
  if num_images ≠ pydetections.length then
    (.error "The length of the detections list must match the length of the images list.",
      [])
  else if 0 < num_scales ∧ num_scales ≠ num_images then
    (.error "The length of the scales list must match the length of the detections list.",
      [])
  else
    match testLoop pydetections pyscales (decide (0 < num_scales)) pyimages 0 with
    | (.error e, tr) => (.error e, tr)
    | (.ok (images, scales), tr) =>
      match fileModels predictor_filename with
      | none => (.error ("Unable to open " ++ predictor_filename), tr)
      | some m =>
        (.ok (test_shape_predictor_with_images m images pydetections scales),
          tr ++ [.inference])

/-- `test_shape_predictor_with_images_no_scales_py` from the binding:
forwards to the scaled variant with an empty scales list. -/
noncomputable def test_shape_predictor_with_images_no_scales_py
    (fileModels : String → Option ShapePredictorModel)
    (pyimages : List PyImage) (pydetections : List (List FullObjectDetection))
    (predictor_filename : String) : Except String ℝ × List TestEvent :=
  test_shape_predictor_with_images_py fileModels pyimages pydetections []
    predictor_filename

/-- The all-ones scale input whose shape matches the detections at both
nesting levels. -/
def onesScales (detections : List (List FullObjectDetection)) : List (List ℚ) :=
  detections.map (fun row => row.map (fun _ => 1))

/-- A concrete options value (dlib's documented defaults), used to
instantiate universally quantified statements. -/
def sampleOptions : TrainingOptions :=
  { be_verbose := false, cascade_depth := 10, tree_depth := 4,
    num_trees_per_cascade_level := 500, nu := 1 / 10,
    oversampling_amount := 20, feature_pool_size := 400, lambda := 1 / 10,
    num_test_splits := 20, feature_pool_region_padding := 0,
    random_seed := "" }

-- ---------------------------------------------------------------------
-- Helper lemmas.
-- ---------------------------------------------------------------------

/-- Reading a list back out element-by-element with `getD` over
`range(length)` reproduces the list. -/
theorem range_map_getD {α : Type} (l : List α) (d : α) :
    (List.range l.length).map (fun j => l.getD j d) = l := by
  apply List.ext_getElem
  · simp
  · intro i h1 h2
    simp_all [List.getD_eq_getElem?_getD, List.getElem?_eq_getElem]

theorem decodeNat_encode (v : ℕ) (rest : List Tok) :
    decodeNat (encodeNat v ++ rest) = some (v, rest) := rfl

theorem decodeQ_encode (v : ℚ) (rest : List Tok) :
    decodeQ (encodeQ v ++ rest) = some (v, rest) := rfl

theorem decodePoint_encode (p : Point) (rest : List Tok) :
    decodePoint (encodePoint p ++ rest) = some (p, rest) := rfl

theorem decodeSplit_encode (s : SplitFeature) (rest : List Tok) :
    decodeSplit (encodeSplit s ++ rest) = some (s, rest) := rfl

theorem decodeCount_encodeBody {α : Type} (enc : α → List Tok)
    (dec : List Tok → Option (α × List Tok))
    (h : ∀ x rest, dec (enc x ++ rest) = some (x, rest)) :
    ∀ (l : List α) (rest : List Tok),
      decodeCount dec l.length (encodeListBody enc l ++ rest) = some (l, rest) := by
  intro l
  induction l with
  | nil => intro rest; simp [encodeListBody, decodeCount]
  | cons x xs ih =>
      intro rest
      simp only [encodeListBody, List.map_cons, List.flatten_cons, List.length_cons,
        List.append_assoc]
      rw [decodeCount, h]
      simp only [Option.bind_eq_bind, Option.some_bind]
      have := ih rest
      simp only [encodeListBody] at this
      rw [this]
      rfl

theorem decodeList_encode {α : Type} (enc : α → List Tok)
    (dec : List Tok → Option (α × List Tok))
    (h : ∀ x rest, dec (enc x ++ rest) = some (x, rest))
    (l : List α) (rest : List Tok) :
    decodeList dec (encodeList enc l ++ rest) = some (l, rest) := by
  unfold decodeList encodeList
  rw [List.append_assoc, decodeNat_encode]
  simp only [Option.bind_eq_bind, Option.some_bind]
  exact decodeCount_encodeBody enc dec h l rest

theorem decodeShape_encode (s : List Point) (rest : List Tok) :
    decodeShape (encodeShape s ++ rest) = some (s, rest) :=
  decodeList_encode encodePoint decodePoint decodePoint_encode s rest

theorem decodeTreeBody_encode (t : RegressionTree) :
    ∀ (fuel : ℕ), treeSize t ≤ fuel →
      ∀ rest, decodeTreeBody fuel (encodeTreeBody t ++ rest) = some (t, rest) := by
  induction t with
  | leaf v =>
      intro fuel hf rest
      match fuel, hf with
      | fuel + 1, _ =>
        show decodeTreeBody (fuel + 1) (Tok.n 0 :: (encodeShape v ++ rest)) = _
        rw [decodeTreeBody]
        simp [decodeShape_encode]
  | node s l r ihl ihr =>
      intro fuel hf rest
      match fuel, hf with
      | fuel + 1, hf =>
        have hl : treeSize l ≤ fuel := by
          have := hf
          simp only [treeSize] at this
          omega
        have hr : treeSize r ≤ fuel := by
          have := hf
          simp only [treeSize] at this
          omega
        show decodeTreeBody (fuel + 1)
            (Tok.n 1 :: (encodeSplit s ++ encodeTreeBody l ++ encodeTreeBody r ++ rest)) = _
        rw [decodeTreeBody]
        simp only [List.append_assoc]
        rw [decodeSplit_encode]
        simp only [Option.bind_eq_bind, Option.some_bind]
        rw [ihl fuel hl, Option.some_bind, ihr fuel hr, Option.some_bind]

theorem decodeTree_encode (t : RegressionTree) (rest : List Tok) :
    decodeTree (encodeTree t ++ rest) = some (t, rest) := by
  unfold decodeTree encodeTree
  rw [List.append_assoc, decodeNat_encode]
  simp only [Option.bind_eq_bind, Option.some_bind]
  exact decodeTreeBody_encode t (treeSize t) le_rfl rest

theorem decodePoolEntry_encode (e : ℕ × Point) (rest : List Tok) :
    decodePoolEntry (encodePoolEntry e ++ rest) = some (e, rest) := rfl

theorem decodeStage_encode (st : CascadeStage) (rest : List Tok) :
    decodeStage (encodeStage st ++ rest) = some (st, rest) := by
  unfold decodeStage encodeStage
  rw [List.append_assoc,
    decodeList_encode encodePoolEntry decodePoolEntry decodePoolEntry_encode]
  simp only [Option.bind_eq_bind, Option.some_bind]
  rw [decodeList_encode encodeTree decodeTree decodeTree_encode]
  rfl

/-- The serialization round trip reconstructs the model exactly. -/
theorem deserialize_serialize (m : ShapePredictorModel) :
    deserializeModel (serializeModel m) = some m := by
  unfold deserializeModel serializeModel
  rw [show encodeShape m.initial_shape ++ encodeList encodeStage m.stages =
      encodeShape m.initial_shape ++ (encodeList encodeStage m.stages ++ []) by simp,
    decodeShape_encode]
  simp only [Option.bind_eq_bind, Option.some_bind]
  rw [decodeList_encode encodeStage decodeStage decodeStage_encode]
  rfl

theorem denormalize_normalize_point (b : Rectangle) (p : Point)
    (hw : rectWidth b ≠ 0) (hh : rectHeight b ≠ 0) :
    denormalizePoint b (normalizePoint b p) = p := by
  unfold denormalizePoint normalizePoint
  cases p with
  | mk px py =>
    simp only [Point.mk.injEq]
    constructor
    · field_simp
    · field_simp

-- ---------------------------------------------------------------------
-- Claim theorems: detection accessors, geometry, predictor dispatch.
-- ---------------------------------------------------------------------

/-- C2: querying `full_obj_det_part` with an index outside
`[0, num_parts())` raises an index error and does not silently clamp;
for an index inside the range it returns the stored point at that
position. -/
theorem part_index_checked (d : FullObjectDetection) (idx : ℕ) :
    (d.num_parts ≤ idx → full_obj_det_part d idx = .error "Index out of range") ∧
    (∀ (h : idx < d.parts.length),
      full_obj_det_part d idx = .ok (d.parts.get ⟨idx, h⟩)) := by
  constructor
  · intro h
    simp [full_obj_det_part, h]
  · intro h
    have h2 : ¬ (idx < 0 ∨ d.num_parts ≤ idx) := by
      simp only [FullObjectDetection.num_parts]
      omega
    simp only [full_obj_det_part, h2, if_false, FullObjectDetection.part]
    congr 1
    simp [List.getD_eq_getElem?_getD, List.getElem?_eq_getElem h]

/-- Witness for C2 at a one-part detection: index 3 errors, index 0
returns the stored point. -/
theorem part_index_checked_witness :
    full_obj_det_part ⟨⟨0, 0, 1, 1⟩, [⟨1, 2⟩]⟩ 3 = .error "Index out of range" ∧
    full_obj_det_part ⟨⟨0, 0, 1, 1⟩, [⟨1, 2⟩]⟩ 0 = .ok ⟨1, 2⟩ :=
  ⟨(part_index_checked ⟨⟨0, 0, 1, 1⟩, [⟨1, 2⟩]⟩ 3).1 (by decide),
   (part_index_checked ⟨⟨0, 0, 1, 1⟩, [⟨1, 2⟩]⟩ 0).2 (by decide)⟩

/-- C10: `parts()` has length `num_parts()` with j-th entry `part(j)`,
and a detection built from (rect, parts list) keeps the rectangle, the
number of parts, and the order of the given points. -/
theorem parts_accessor_and_init (d : FullObjectDetection) (r : Rectangle)
    (ps : List Point) :
    (full_obj_det_parts d).length = full_obj_det_num_parts d ∧
    (∀ j, j < full_obj_det_num_parts d →
      (full_obj_det_parts d).getD j zeroPoint = d.part j) ∧
    full_obj_det_num_parts (full_obj_det_init r ps) = ps.length ∧
    full_obj_det_get_rect (full_obj_det_init r ps) = r ∧
    (full_obj_det_init r ps).parts = ps := by
  refine ⟨by simp [full_obj_det_parts, full_obj_det_num_parts], ?_, ?_, rfl, ?_⟩
  · intro j hj
    simp only [full_obj_det_num_parts, FullObjectDetection.num_parts] at hj
    simp [full_obj_det_parts, FullObjectDetection.num_parts,
      List.getD_eq_getElem?_getD, List.getElem?_eq_getElem, hj]
  · simp only [full_obj_det_num_parts, FullObjectDetection.num_parts,
      full_obj_det_init]
    simp
  · simp only [full_obj_det_init]
    exact range_map_getD ps zeroPoint

/-- Witness for C10 at a two-part detection. -/
theorem parts_accessor_and_init_witness :
    (full_obj_det_parts ⟨⟨0, 0, 3, 3⟩, [⟨1, 2⟩, ⟨3, 4⟩]⟩).length =
      full_obj_det_num_parts ⟨⟨0, 0, 3, 3⟩, [⟨1, 2⟩, ⟨3, 4⟩]⟩ ∧
    (full_obj_det_parts ⟨⟨0, 0, 3, 3⟩, [⟨1, 2⟩, ⟨3, 4⟩]⟩).getD 1 zeroPoint =
      FullObjectDetection.part ⟨⟨0, 0, 3, 3⟩, [⟨1, 2⟩, ⟨3, 4⟩]⟩ 1 ∧
    (full_obj_det_init ⟨0, 0, 3, 3⟩ [⟨1, 2⟩, ⟨3, 4⟩]).parts = [⟨1, 2⟩, ⟨3, 4⟩] :=
  ⟨(parts_accessor_and_init ⟨⟨0, 0, 3, 3⟩, [⟨1, 2⟩, ⟨3, 4⟩]⟩ ⟨0, 0, 3, 3⟩
      [⟨1, 2⟩, ⟨3, 4⟩]).1,
   (parts_accessor_and_init ⟨⟨0, 0, 3, 3⟩, [⟨1, 2⟩, ⟨3, 4⟩]⟩ ⟨0, 0, 3, 3⟩
      [⟨1, 2⟩, ⟨3, 4⟩]).2.1 1 (by decide),
   (parts_accessor_and_init ⟨⟨0, 0, 3, 3⟩, [⟨1, 2⟩, ⟨3, 4⟩]⟩ ⟨0, 0, 3, 3⟩
      [⟨1, 2⟩, ⟨3, 4⟩]).2.2.2.2⟩

/-- C9: for every shape and every non-degenerate box (positive width and
height) the box-normalizing round trip is the identity. -/
theorem denormalize_normalize_shape (s : List Point) (b : Rectangle)
    (hw : 0 < rectWidth b) (hh : 0 < rectHeight b) :
    denormalizeShape (normalizeShape s b) b = s := by
  unfold denormalizeShape normalizeShape
  rw [List.map_map]
  have h : denormalizePoint b ∘ normalizePoint b = id := by
    funext p
    exact denormalize_normalize_point b p hw.ne' hh.ne'
  rw [h, List.map_id]

/-- Witness for C9 at a concrete shape and box. -/
theorem denormalize_normalize_shape_witness :
    0 < rectWidth ⟨0, 0, 2, 4⟩ ∧ 0 < rectHeight ⟨0, 0, 2, 4⟩ ∧
    denormalizeShape (normalizeShape [⟨3, 5⟩] ⟨0, 0, 2, 4⟩) ⟨0, 0, 2, 4⟩ = [⟨3, 5⟩] :=
  ⟨by decide, by decide,
   denormalize_normalize_shape [⟨3, 5⟩] ⟨0, 0, 2, 4⟩ (by decide) (by decide)⟩

/-- C5: the predictor call takes the grayscale path for a grayscale
image, the RGB path for an RGB image, and fails with a descriptive error
for anything else; in every case the loaded model is left untouched. -/
theorem run_predictor_dispatch (p : ShapePredictorModel) (img : PyImage)
    (box : Rectangle) :
    (is_gray_python_image img = true →
      run_predictor p img box =
        (.ok (predictDet p (numpy_gray_image img) box), p, img)) ∧
    (is_gray_python_image img = false → is_rgb_python_image img = true →
      run_predictor p img box =
        (.ok (predictDet p (numpy_rgb_image img) box), p, img)) ∧
    (is_gray_python_image img = false → is_rgb_python_image img = false →
      run_predictor p img box =
        (.error "Unsupported image type, must be 8bit gray or RGB image.",
          p, img)) := by
  refine ⟨fun hg => ?_, fun hg hr => ?_, fun hg hr => ?_⟩ <;>
exact by simp [run_predictor, hg]
  <;> simp [run_predictor, hg, hr]

/-- Witness for C5: an unsupported object is rejected with the
descriptive error and the model passes through unchanged. -/
theorem run_predictor_dispatch_witness :
    run_predictor ⟨[], []⟩ (.other "not an image") ⟨0, 0, 1, 1⟩ =
      (.error "Unsupported image type, must be 8bit gray or RGB image.",
        ⟨[], []⟩, .other "not an image") :=
  (run_predictor_dispatch ⟨[], []⟩ (.other "not an image") ⟨0, 0, 1, 1⟩).2.2
    rfl rfl

/-- C6: inference through `run_predictor` is a deterministic pure
function of (model, image, box): identical inputs give identical
results, and the call leaves the model and the image unchanged. -/
theorem run_predictor_pure (p p2 : ShapePredictorModel) (img img2 : PyImage)
    (box box2 : Rectangle) (hp : p = p2) (hi : img = img2) (hb : box = box2) :
    run_predictor p img box = run_predictor p2 img2 box2 ∧
    (run_predictor p img box).2.1 = p ∧
    (run_predictor p img box).2.2 = img := by
  subst hp hi hb
  refine ⟨rfl, ?_, ?_⟩ <;> cases img <;> rfl

/-- Witness for C6 at a concrete model, image and box. -/
theorem run_predictor_pure_witness :
    run_predictor ⟨[⟨1, 1⟩], []⟩ (.gray [[5]]) ⟨0, 0, 1, 1⟩ =
      run_predictor ⟨[⟨1, 1⟩], []⟩ (.gray [[5]]) ⟨0, 0, 1, 1⟩ ∧
    (run_predictor ⟨[⟨1, 1⟩], []⟩ (.gray [[5]]) ⟨0, 0, 1, 1⟩).2.1 = ⟨[⟨1, 1⟩], []⟩ ∧
    (run_predictor ⟨[⟨1, 1⟩], []⟩ (.gray [[5]]) ⟨0, 0, 1, 1⟩).2.2 = .gray [[5]] :=
  run_predictor_pure ⟨[⟨1, 1⟩], []⟩ ⟨[⟨1, 1⟩], []⟩ (.gray [[5]]) (.gray [[5]])
    ⟨0, 0, 1, 1⟩ ⟨0, 0, 1, 1⟩ rfl rfl rfl

-- ---------------------------------------------------------------------
-- Claim theorems: training entry point and determinism.
-- ---------------------------------------------------------------------

/-- C1: a length mismatch between the images and detections lists makes
`train_shape_predictor` fail with the precondition error describing the
mismatch, before any image conversion or training work and without
writing the output file (the event trace is empty). -/
theorem train_length_mismatch_fails_early (pyimages : List PyImage)
    (pydetections : List (List FullObjectDetection)) (fname : String)
    (options : TrainingOptions)
    (h : pyimages.length ≠ pydetections.length) :
    train_shape_predictor_on_images_py pyimages pydetections fname options =
      (.error "The length of the detections list must match the length of the images list.",
        []) := by
  simp [train_shape_predictor_on_images_py, h]

/-- Witness for C1: one image against two detection lists (lengths 1 and
2) fails with the precondition error and an empty work trace. -/
theorem train_length_mismatch_fails_early_witness :
    train_shape_predictor_on_images_py [.gray [[0]]] [[], []] "predictor.dat"
        sampleOptions =
      (.error "The length of the detections list must match the length of the images list.",
        []) :=
  train_length_mismatch_fails_early [.gray [[0]]] [[], []] "predictor.dat"
    sampleOptions (by decide)

/-- C8: training is deterministic — identical (training set, options
including `random_seed`) produce identical models — and the run is the
trainer against the single generator seeded from `random_seed`. -/
theorem train_deterministic (images images2 : List GrayImage)
    (dets dets2 : List (List FullObjectDetection))
    (opts opts2 : TrainingOptions)
    (hi : images = images2) (hd : dets = dets2) (ho : opts = opts2) :
    train_shape_predictor_trainer images dets opts =
      train_shape_predictor_trainer images2 dets2 opts2 ∧
    train_shape_predictor_trainer images dets opts =
      trainWithRng images dets opts (mkRng opts.random_seed) := by
  subst hi hd ho
  exact ⟨rfl, rfl⟩

/-- Witness for C8 at a concrete training set and options value. -/
theorem train_deterministic_witness :
    train_shape_predictor_trainer [⟨[[0]]⟩] [[]] sampleOptions =
      train_shape_predictor_trainer [⟨[[0]]⟩] [[]] sampleOptions ∧
    train_shape_predictor_trainer [⟨[[0]]⟩] [[]] sampleOptions =
      trainWithRng [⟨[[0]]⟩] [[]] sampleOptions
        (mkRng sampleOptions.random_seed) :=
  train_deterministic [⟨[[0]]⟩] [⟨[[0]]⟩] [[]] [[]] sampleOptions sampleOptions
    rfl rfl rfl

-- ---------------------------------------------------------------------
-- Claim theorems: serialization round trip.
-- ---------------------------------------------------------------------

/-- C7: deserializing a serialized model succeeds, reconstructs the
model exactly, and therefore reproduces identical `predict` output for
every image and box. -/
theorem serialize_roundtrip_predict (m : ShapePredictorModel)
    (img : GrayImage) (box : Rectangle) :
    deserializeModel (serializeModel m) = some m ∧
    (deserializeModel (serializeModel m)).map
        (fun m2 => predictShape m2 img box) =
      some (predictShape m img box) := by
  refine ⟨deserialize_serialize m, ?_⟩
  rw [deserialize_serialize]
  rfl

-- ---------------------------------------------------------------------
-- Claim theorems: scales-length validation in the test entry point.
-- ---------------------------------------------------------------------

/-- If every remaining image converts and some remaining position has an
inner detections/scales length mismatch, the data-copying loop stops
with the scales-length error and never reaches inference. -/
theorem testLoop_mismatch (pydetections : List (List FullObjectDetection))
    (pyscales : List (List ℚ)) :
    ∀ (rest : List PyImage) (i0 : ℕ),
      (∀ img ∈ rest, ∃ g, pyimage_to_dlib_image img = .ok g) →
      (∃ k, k < rest.length ∧
        (pydetections.getD (i0 + k) []).length ≠
          (pyscales.getD (i0 + k) []).length) →
      (testLoop pydetections pyscales true rest i0).1 =
        .error "The length of the scales list must match the length of the detections list." ∧
      TestEvent.inference ∉ (testLoop pydetections pyscales true rest i0).2 := by
  intro rest
  induction rest with
  | nil =>
      intro i0 _ hmm
      obtain ⟨k, hk, _⟩ := hmm
      simp at hk
  | cons img tail ih =>
      intro i0 hsup hmm
      obtain ⟨g, hg⟩ := hsup img (List.mem_cons_self img tail)
      by_cases hcur :
          (pydetections.getD i0 []).length ≠ (pyscales.getD i0 []).length
      · simp only [testLoop, hg]
        rw [if_pos ⟨by trivial, hcur⟩]
        simp
      · push_neg at hcur
        obtain ⟨k, hk, hkm⟩ := hmm
        cases k with
        | zero =>
            rw [Nat.add_zero] at hkm
            exact absurd hcur hkm
        | succ k2 =>
            have hmm2 : ∃ k, k < tail.length ∧
                (pydetections.getD (i0 + 1 + k) []).length ≠
                  (pyscales.getD (i0 + 1 + k) []).length := by
              refine ⟨k2, ?_, ?_⟩
              · simpa using hk
              · have he : i0 + 1 + k2 = i0 + (k2 + 1) := by omega
                rw [he]
                exact hkm
            have ihr := ih (i0 + 1)
              (fun im hm => hsup im (List.mem_cons_of_mem img hm)) hmm2
            rcases hres : testLoop pydetections pyscales true tail (i0 + 1)
              with ⟨r, tr⟩
            rw [hres] at ihr
            simp only [testLoop, hg]
            rw [if_neg (fun hc => hc.2 hcur), hres]
            cases r with
            | error e =>
                simp only at ihr
                refine ⟨by simp [ihr.1], ?_⟩
                have h2 := ihr.2
                simp only [List.mem_cons]
                rintro (h | h)
                · exact absurd h (by simp)
                · exact h2 h
            | ok v =>
                simp at ihr

/-- C3: with a non-empty scales list, a list-length mismatch at either
nesting level — scales against images at the outer level, or a scales
row against its detections row at the inner level — is rejected with the
descriptive scales-length error, and no inference work happens (no
inference event is traced). -/
theorem test_scales_mismatch_fails_early
    (fileModels : String → Option ShapePredictorModel)
    (pyimages : List PyImage) (pydetections : List (List FullObjectDetection))
    (pyscales : List (List ℚ)) (fname : String)
    (hne : pyscales ≠ [])
    (hsup : ∀ img ∈ pyimages, ∃ g, pyimage_to_dlib_image img = .ok g)
    (hlen : pyimages.length = pydetections.length)
    (hmm : pyscales.length ≠ pyimages.length ∨
      ∃ i, i < pyimages.length ∧
        (pydetections.getD i []).length ≠ (pyscales.getD i []).length) :
    (test_shape_predictor_with_images_py fileModels pyimages pydetections
        pyscales fname).1 =
      .error "The length of the scales list must match the length of the detections list." ∧
    TestEvent.inference ∉
      (test_shape_predictor_with_images_py fileModels pyimages pydetections
        pyscales fname).2 := by
  have hpos : 0 < pyscales.length := List.length_pos.mpr hne
  by_cases houter : pyscales.length = pyimages.length
  · rcases hmm with h | ⟨i, hi, him⟩
    · exact absurd houter h
    · have hloop := testLoop_mismatch pydetections pyscales pyimages 0 hsup
        ⟨i, hi, by simpa using him⟩
      simp only [test_shape_predictor_with_images_py]
      rw [if_neg (by simp [hlen]), if_neg (by simp [houter]),
        decide_eq_true hpos]
      rcases hres : testLoop pydetections pyscales true pyimages 0 with ⟨r, tr⟩
      rw [hres] at hloop
      cases r with
      | error e =>
          simp only at hloop
          exact ⟨by simpa using hloop.1, hloop.2⟩
      | ok v =>
          simp at hloop
  · simp only [test_shape_predictor_with_images_py]
    rw [if_neg (by simp [hlen]), if_pos ⟨hpos, houter⟩]
    simp

/-- Witness for C3: an outer mismatch (one scales row against zero
images) is rejected with the scales-length error and no inference. -/
theorem test_scales_mismatch_fails_early_witness :
    (test_shape_predictor_with_images_py (fun _ => none) [] [] [[1]]
        "predictor.dat").1 =
      .error "The length of the scales list must match the length of the detections list." ∧
    TestEvent.inference ∉
      (test_shape_predictor_with_images_py (fun _ => none) [] [] [[1]]
        "predictor.dat").2 :=
  test_scales_mismatch_fails_early (fun _ => none) [] [] [[1]] "predictor.dat"
    (by decide) (by simp) rfl (Or.inl (by decide))

-- ---------------------------------------------------------------------
-- Claim theorems: the no-scales test variant against all-ones scales.
-- ---------------------------------------------------------------------

/-- The i-th row of the all-ones scales is the all-ones row over the
i-th detections row. -/
theorem onesScales_getD (dets : List (List FullObjectDetection)) (i : ℕ) :
    (onesScales dets).getD i [] = (dets.getD i []).map (fun _ => (1 : ℚ)) := by
  induction dets generalizing i with
  | nil => simp [onesScales]
  | cons d tl ih =>
      cases i with
      | zero => simp [onesScales]
      | succ n =>
          simp only [onesScales, List.map_cons, List.getD_cons_succ]
          exact ih n

/-- Every entry read from an all-ones row with default 1 is 1. -/
theorem mapOnes_getD {α : Type} (l : List α) (j : ℕ) :
    (l.map (fun _ => (1 : ℚ))).getD j 1 = 1 := by
  induction l generalizing j with
  | nil => simp
  | cons a tl ih =>
      cases j with
      | zero => simp
      | succ n => simp [ih n]

/-- A scales list whose rows read as all ones divides by 1 everywhere. -/
theorem scaleAt_ones (ss : List (List ℚ))
    (h : ∀ row ∈ ss, ∀ j, row.getD j 1 = 1) (i j : ℕ) :
    scaleAt ss i j = 1 := by
  unfold scaleAt
  split
  · rfl
  · by_cases hi : i < ss.length
    · refine h (ss.getD i []) ?_ j
      rw [List.getD_eq_getElem?_getD, List.getElem?_eq_getElem hi]
      exact List.getElem_mem hi
    · have hnil : ss.getD i [] = [] := by
        rw [List.getD_eq_getElem?_getD, List.getElem?_eq_none (by omega)]
        rfl
      rw [hnil]
      simp

/-- The evaluator is unchanged by a scales input that divides by 1
everywhere — supplying such scales equals supplying none. -/
theorem evaluator_scale_one (m : ShapePredictorModel) (gs : List GrayImage)
    (dets : List (List FullObjectDetection)) (ss : List (List ℚ))
    (h : ∀ row ∈ ss, ∀ j, row.getD j 1 = 1) :
    test_shape_predictor_with_images m gs dets ss =
      test_shape_predictor_with_images m gs dets [] := by
  unfold test_shape_predictor_with_images
  congr 1
  apply congrArg List.sum
  apply List.map_congr_left
  intro i _
  apply congrArg List.sum
  apply List.map_congr_left
  intro j _
  rw [scaleAt_ones ss h i j]
  rfl

/-- The data-copying loop behaves identically with all-ones scales and
with no scales: same errors, same traces, same converted images; the
only difference is that the all-ones run collects scale rows that read
as all ones. -/
theorem testLoop_ones (dets : List (List FullObjectDetection)) :
    ∀ (rest : List PyImage) (i0 : ℕ),
      (∃ e tr,
        testLoop dets (onesScales dets) true rest i0 = (.error e, tr) ∧
        testLoop dets [] false rest i0 = (.error e, tr)) ∨
      (∃ gs ss tr,
        testLoop dets (onesScales dets) true rest i0 = (.ok (gs, ss), tr) ∧
        testLoop dets [] false rest i0 = (.ok (gs, []), tr) ∧
        ∀ row ∈ ss, ∀ j, row.getD j 1 = 1) := by
  intro rest
  induction rest with
  | nil =>
      intro i0
      right
      exact ⟨[], [], [], rfl, rfl, by simp⟩
  | cons img tail ih =>
      intro i0
      cases hconv : pyimage_to_dlib_image img with
      | error e =>
          left
          refine ⟨e, [], ?_, ?_⟩ <;> simp [testLoop, hconv]
      | ok g =>
          have hlen : ¬ (dets.getD i0 []).length ≠
              ((onesScales dets).getD i0 []).length := by
            rw [onesScales_getD]
            simp
          rcases ih (i0 + 1) with ⟨e, tr, h1, h2⟩ | ⟨gs, ss, tr, h1, h2, h3⟩
          · left
            refine ⟨e, .imageConverted i0 :: tr, ?_, ?_⟩
            · simp only [testLoop, hconv]
              rw [if_neg (fun hc => hlen hc.2), h1]
            · simp only [testLoop, hconv]
              rw [if_neg (fun hc => by simpa using hc.1), h2]
          · right
            refine ⟨g :: gs, (onesScales dets).getD i0 [] :: ss,
              .imageConverted i0 :: tr, ?_, ?_, ?_⟩
            · simp only [testLoop, hconv]
              rw [if_neg (fun hc => hlen hc.2), h1]
              simp
            · simp only [testLoop, hconv]
              rw [if_neg (fun hc => by simpa using hc.1), h2]
              simp
            · intro row hrow j
              rcases List.mem_cons.mp hrow with hr | hr
              · rw [hr, onesScales_getD]
                exact mapOnes_getD (dets.getD i0 []) j
              · exact h3 row hr j

/-- C4: `test_shape_predictor` with no scales supplied returns the same
result (and performs the same work) as supplying an all-ones scale
vector whose shape matches the detections at both nesting levels. -/
theorem test_no_scales_eq_ones
    (fileModels : String → Option ShapePredictorModel)
    (pyimages : List PyImage) (pydetections : List (List FullObjectDetection))
    (fname : String) :
    test_shape_predictor_with_images_no_scales_py fileModels pyimages
        pydetections fname =
      test_shape_predictor_with_images_py fileModels pyimages pydetections
        (onesScales pydetections) fname := by
  unfold test_shape_predictor_with_images_no_scales_py
  by_cases hd : pydetections = []
  · subst hd
    rfl
  · by_cases hlen : pyimages.length = pydetections.length
    · have hpos : 0 < (onesScales pydetections).length := by
        simpa [onesScales] using List.length_pos.mpr hd
      have hsl : ¬ (onesScales pydetections).length ≠ pyimages.length := by
        simp [onesScales, hlen]
      simp only [test_shape_predictor_with_images_py]
      rw [if_neg (not_not_intro hlen), if_neg (not_not_intro hlen),
        if_neg (by simp), if_neg (fun hc => hsl hc.2),
        show decide (0 < (List.length ([] : List (List ℚ)))) = false from rfl,
        decide_eq_true hpos]
      rcases testLoop_ones pydetections pyimages 0 with
        ⟨e, tr, h1, h2⟩ | ⟨gs, ss, tr, h1, h2, h3⟩
      · rw [h1, h2]
      · rw [h1, h2]
        cases fileModels fname with
        | none => rfl
        | some m =>
            simp only
            rw [evaluator_scale_one m gs pydetections ss h3]
    · simp only [test_shape_predictor_with_images_py]
      rw [if_pos (by simp [hlen]), if_pos (by simp [hlen])]

end ShapePred
